import Mathlib

/-!
# TicketsApi: a verification development of `main.go`

The service keeps one in-memory map `users : map[int]User` and serves three
handlers: `listUsers`, `createUser` and `getUser`.  `calculateTicket` derives
the ticket (expiry date and price) of a freshly created record.

Embedding conventions.

* The package-level map is passed explicitly: a handler takes the store and
  returns the new store together with the HTTP response.
* `time.Now()` is an explicit argument (the clock reading).
* Go `int` values are mathematical integers; every theorem holds for all of
  them, in particular for the 64-bit range a JSON decoder can produce.
* `float32` prices are rationals: every finite `float32` is a dyadic rational
  and the two constants `40.0` and `70.0` are represented exactly.
* The result of `json.NewDecoder(r.Body).Decode(&user)` is an argument of type
  `Except String User`; the JSON text of a response body is not modelled, a
  body carries the encoded value itself.
-/

namespace TicketsApi

/-! ## Time (the part of Go's `time` package that `calculateTicket` uses) -/

/-- An instant with a presentation zone: nanoseconds since the Unix epoch and
the zone offset in seconds east of UTC. -/
structure Time where
  unixNano : Int
  zoneOffset : Int
deriving DecidableEq, Repr

/-- The Go constant `time.Hour`, a duration in nanoseconds. -/
def Hour : Int := 3600 * 1000000000

/-- Nanoseconds in a day of 24 hours. -/
def Day : Int := 24 * Hour

/-- Seconds from Go's zero time (January 1, year 1, 00:00:00 UTC) to the Unix
epoch, as the `time` package defines `unixToInternal`. -/
def unixToInternal : Int := (1969 * 365 + 1969 / 4 - 1969 / 100 + 1969 / 400) * 86400

/-- Go's `t.UTC()`: the same instant presented in UTC. -/
def Time.UTC (t : Time) : Time := { t with zoneOffset := 0 }

/-- Go's `t.Truncate(d)`: rounds `t` down to a multiple of `d` since the zero time;
returns `t` unchanged when `d <= 0`.  The remainder is the non-negative one,
as in the library's `div`. -/
def Time.Truncate (t : Time) (d : Int) : Time :=
  if d ≤ 0 then t
  else { t with unixNano := t.unixNano - (t.unixNano + unixToInternal * 1000000000) % d }

/-- Go's `t.AddDate(0, 0, days)` for a time presented in UTC: Go's clock has no leap
seconds and UTC has no zone transitions, so a calendar day is 24 hours. -/
def Time.AddDays (t : Time) (days : Int) : Time :=
  { t with unixNano := t.unixNano + days * Day }

/-! ## Data model -/

/-- The Go struct `User`. -/
structure User where
  ID : Int
  Name : String
  Surename : String
  Passport : String
  Age : Int
  Ticket : Time
  Price : ℚ
deriving DecidableEq

/-- The package-level `users` map: a finite map with unique integer keys. -/
abbrev Store := AList (fun _ : Int => User)

/-! ## HTTP responses -/

def StatusOK : Nat := 200
def StatusBadRequest : Nat := 400
def StatusNotFound : Nat := 404
def StatusConflict : Nat := 409
def StatusInternalServerError : Nat := 500

/-- What a handler wrote to the response body: a plain text, the JSON object
of a record, the JSON array of a non-nil slice of records, or the JSON `null`
that encodes a nil slice. -/
inductive Body where
  | text (s : String)
  | user (u : User)
  | userList (us : List User)
  | null
deriving DecidableEq

/-- Status code, `Content-Type` header and body of a response. -/
structure Response where
  status : Nat
  contentType : String
  body : Body
deriving DecidableEq

/-- Go's `http.Error(w, msg, code)`: a plain-text response whose body is the
message followed by a newline. -/
def httpError (msg : String) (code : Nat) : Response :=
  { status := code, contentType := "text/plain; charset=utf-8", body := Body.text (msg ++ "\n") }

/-- A handler that sets `Content-Type: application/json` and encodes a value
without calling `WriteHeader`: the status is 200. -/
def jsonResponse (b : Body) : Response :=
  { status := StatusOK, contentType := "application/json", body := b }

/-! ## Library functions used by the handlers -/

/-- Go's `regex.MatchString(s)` for the pattern `^[0-9]+$` (which always compiles):
the whole text is one or more characters of the class `[0-9]`.  Without the
`m` flag `$` matches only at the very end of the text. -/
def matchDigits (s : String) : Bool :=
  !s.data.isEmpty && s.data.all Char.isDigit

/-- Value of a run of decimal digits, `none` at the first other character. -/
def digitsValue : List Char → Nat → Option Nat
  | [], acc => some acc
  | c :: cs, acc => if c.isDigit then digitsValue cs (acc * 10 + (c.toNat - 48)) else none

/-- Go's `strconv.Atoi` with a 64-bit `int`: an optional sign, then one or more
decimal digits, and a value in the range of `int64`; otherwise an error. -/
def Atoi (s : String) : Option Int :=
  let signed : Bool × List Char :=
    match s.data with
    | '-' :: rest => (true, rest)
    | '+' :: rest => (false, rest)
    | cs => (false, cs)
  if signed.2.isEmpty then none
  else
    match digitsValue signed.2 0 with
    | none => none
    | some n =>
      if signed.1 then (if n ≤ 2 ^ 63 then some (-(n : Int)) else none)
      else (if n < 2 ^ 63 then some (n : Int) else none)

/-! ## The program -/

/-- The Go function `calculateTicket`, with `time.Now()` as the argument `now`. -/
def calculateTicket (now : Time) (user : User) : User :=
  let currentDate := (now.UTC).Truncate (24 * Hour)
  let user := { user with Ticket := currentDate.AddDays 3 }
  if user.Age ≥ 60 then { user with Price := 40 } else { user with Price := 70 }

/-- A Go value of type `[]User`: `none` is the nil slice, `some us` a non-nil
slice with the elements `us`. -/
abbrev UserSlice := Option (List User)

/-- Go's `make([]User, 0, n)`: a non-nil slice of length 0; the capacity `n`
is not observable. -/
def makeUserSlice (_n : Nat) : UserSlice := some []

/-- Go's `append(s, u)`: the elements of `s` (none for the nil slice)
followed by `u`, in a non-nil slice. -/
def appendUser (s : UserSlice) (u : User) : UserSlice := some (s.getD [] ++ [u])

/-- Go's `json.NewEncoder(w).Encode(s)` for a slice of records: `null` for the nil
slice, an array otherwise. -/
def encodeUserSlice : UserSlice → Body
  | none => Body.null
  | some us => Body.userList us

/-- The handler `listUsers`.  The loop `for _, user := range users` visits
every entry of the map once, in an order the language leaves unspecified; the
order of the entries of the store stands for it. -/
def listUsers (users : Store) : Response :=
  let userList := users.entries.foldl (fun acc e => appendUser acc e.2)
    (makeUserSlice users.entries.length)
  jsonResponse (encodeUserSlice userList)

/-- The passport test of `createUser`: `len(p) != 9 || !regex.MatchString(p)`
is false.  `len` is the length in bytes. -/
def passportOk (p : String) : Bool :=
  !(p.utf8ByteSize != 9 || !matchDigits p)

/-- The handler `createUser`; `decoded` is the result of decoding the body.
The branch after `regexp.Compile` (500 "Internal server error") is left out:
the pattern is a constant that compiles. -/
def createUser (users : Store) (now : Time) (decoded : Except String User) : Store × Response :=
  match decoded with
  | .error err => (users, httpError err StatusBadRequest)
  | .ok user =>
    if user.ID = 0 then (users, httpError "ID is required" StatusBadRequest)
    else if user.Age ≤ 0 then (users, httpError "Age cannot be less than zero" StatusBadRequest)
    else if user.Passport.utf8ByteSize != 9 || !matchDigits user.Passport then
      (users, httpError "Invalid passport number" StatusBadRequest)
    else
      match users.lookup user.ID with
      | some _ => (users, httpError "User already exists" StatusConflict)
      | none =>
        let newUser := calculateTicket now user
        (users.insert newUser.ID newUser, jsonResponse (Body.user newUser))

/-- The handler `getUser`; `idStr` is the path parameter `id`. -/
def getUser (users : Store) (idStr : String) : Response :=
  match Atoi idStr with
  | none => httpError "Invalid ID" StatusBadRequest
  | some id =>
    match users.lookup id with
    | none => httpError "User not found" StatusNotFound
    | some user => jsonResponse (Body.user user)

/-! ## Requests and runs -/

/-- A request to one of the three routes. -/
inductive Request where
  | list
  | get (idStr : String)
  | create (decoded : Except String User)

/-- The router: dispatches a request arriving at clock reading `now`. -/
def handle (users : Store) (now : Time) : Request → Store × Response
  | .list => (users, listUsers users)
  | .get idStr => (users, getUser users idStr)
  | .create decoded => createUser users now decoded

/-- The store after a sequence of requests, each with its clock reading. -/
def run (users : Store) : List (Time × Request) → Store
  | [] => users
  | (now, req) :: rest => run (handle users now req).1 rest

/-- The identifiers of the create requests that succeeded (status 200) during
a sequence of requests. -/
def succeededCreates (users : Store) : List (Time × Request) → List Int
  | [] => []
  | (now, .create (.ok user)) :: rest =>
    let out := createUser users now (.ok user)
    if out.2.status = StatusOK then user.ID :: succeededCreates out.1 rest
    else succeededCreates out.1 rest
  | (now, req) :: rest => succeededCreates (handle users now req).1 rest

/-! ## Predicates of the specification -/

/-- Value of a run of decimal digits read as a number in base ten, as the
specification of a decimal integer has it. -/
def decimalValue (ds : List Char) : Nat :=
  ds.foldl (fun acc c => acc * 10 + (c.toNat - 48)) 0

/-- The specification's valid integer: an optional sign followed by one or
more ASCII digits. -/
def IsDecimalInteger (s : String) : Prop :=
  ∃ sign ds : List Char, s.data = sign ++ ds ∧ (sign = [] ∨ sign = ['+'] ∨ sign = ['-']) ∧
    ds ≠ [] ∧ ∀ c ∈ ds, '0' ≤ c ∧ c ≤ '9'

/-- The integer that a sign and a run of digits denote. -/
def signedValue (sign ds : List Char) : Int :=
  if sign = ['-'] then -(decimalValue ds : Int) else (decimalValue ds : Int)

/-- The specification's well-formed entry: the key is the identifier of the
record, which is non-zero; the age is positive; the passport is nine ASCII
digits; the price is 40 from age 60 on and 70 below; the expiry is a whole
number of days since the epoch, in UTC. -/
def EntryWellFormed (k : Int) (u : User) : Prop :=
  k = u.ID ∧ u.ID ≠ 0 ∧ 0 < u.Age ∧
    (u.Passport.length = 9 ∧ ∀ c ∈ u.Passport.data, '0' ≤ c ∧ c ≤ '9') ∧
    u.Price = (if u.Age ≥ 60 then 40 else 70) ∧
    u.Ticket.unixNano % (86400 * 1000000000) = 0 ∧ u.Ticket.zoneOffset = 0

instance (k : Int) (u : User) : Decidable (EntryWellFormed k u) := by
  unfold EntryWellFormed
  exact inferInstance

/-- The specification's well-formed store: every entry is well formed. -/
def StoreWellFormed (users : Store) : Prop :=
  ∀ e ∈ users.entries, EntryWellFormed e.1 e.2

instance (users : Store) : Decidable (StoreWellFormed users) := by
  unfold StoreWellFormed
  exact inferInstance

end TicketsApi

/-! ## Auxiliary lemmas -/

namespace TicketsApi

theorem isDigit_iff (c : Char) : c.isDigit = true ↔ ('0' ≤ c ∧ c ≤ '9') := by
  simp only [Char.isDigit, Bool.and_eq_true, decide_eq_true_eq, Char.le_def]
  exact Iff.rfl

theorem utf8Size_of_isDigit (c : Char) (h : c.isDigit = true) : c.utf8Size = 1 := by
  simp only [Char.isDigit, Bool.and_eq_true, decide_eq_true_eq] at h
  have h2 : c.val.toNat ≤ 57 := h.2
  have h3 : c.val ≤ 127 := by
    show c.val.toNat ≤ 127
    omega
  simp [Char.utf8Size, h3]

theorem utf8ByteSize_go_of_digits (cs : List Char) (h : cs.all Char.isDigit = true) :
    String.utf8ByteSize.go cs = cs.length := by
  induction cs with
  | nil => rfl
  | cons c cs ih =>
    simp only [List.all_cons, Bool.and_eq_true] at h
    show String.utf8ByteSize.go cs + c.utf8Size = cs.length + 1
    rw [ih h.2, utf8Size_of_isDigit c h.1]

theorem passportOk_eq_true (p : String) :
    passportOk p = true ↔ (p.utf8ByteSize = 9 ∧ p.data ≠ [] ∧ p.data.all Char.isDigit = true) := by
  unfold passportOk matchDigits
  by_cases h1 : p.utf8ByteSize = 9 <;> by_cases h2 : p.data = [] <;>
    by_cases h3 : p.data.all Char.isDigit = true <;> simp [h1, h2, h3]

theorem passportOk_nine_digits (p : String) :
    passportOk p = true ↔ (p.length = 9 ∧ ∀ c ∈ p.data, '0' ≤ c ∧ c ≤ '9') := by
  have key : (∀ c ∈ p.data, '0' ≤ c ∧ c ≤ '9') ↔ p.data.all Char.isDigit = true := by
    simp only [List.all_eq_true, isDigit_iff]
  rw [passportOk_eq_true, key]
  constructor
  · rintro ⟨h1, -, h3⟩
    have hb : p.utf8ByteSize = p.length := utf8ByteSize_go_of_digits p.data h3
    exact ⟨by omega, h3⟩
  · rintro ⟨h1, h3⟩
    have hb : p.utf8ByteSize = p.length := utf8ByteSize_go_of_digits p.data h3
    refine ⟨by omega, ?_, h3⟩
    intro hnil
    have : p.length = 0 := by
      show p.data.length = 0
      rw [hnil]; rfl
    omega

/-! ### `calculateTicket` field by field -/

theorem calculateTicket_eq (now : Time) (user : User) :
    calculateTicket now user =
      { user with
        Ticket := ((now.UTC).Truncate (24 * Hour)).AddDays 3
        Price := if user.Age ≥ 60 then 40 else 70 } := by
  unfold calculateTicket
  by_cases h : user.Age ≥ 60 <;> simp [h]

theorem calculateTicket_ID (now : Time) (user : User) :
    (calculateTicket now user).ID = user.ID := by rw [calculateTicket_eq]

theorem calculateTicket_Age (now : Time) (user : User) :
    (calculateTicket now user).Age = user.Age := by rw [calculateTicket_eq]

theorem calculateTicket_Passport (now : Time) (user : User) :
    (calculateTicket now user).Passport = user.Passport := by rw [calculateTicket_eq]

theorem calculateTicket_Price (now : Time) (user : User) :
    (calculateTicket now user).Price = if user.Age ≥ 60 then 40 else 70 := by
  rw [calculateTicket_eq]

theorem Day_eq : Day = 86400000000000 := by decide

theorem calculateTicket_Ticket (now : Time) (user : User) :
    (calculateTicket now user).Ticket =
      { unixNano := now.unixNano - now.unixNano % Day + 3 * Day, zoneOffset := 0 } := by
  rw [calculateTicket_eq]
  have hd : ¬ ((24 : Int) * Hour ≤ 0) := by decide
  have h24 : (24 : Int) * Hour = 86400000000000 := by decide
  have hu : unixToInternal * 1000000000 = 86400000000000 * 719162 := by decide
  simp only [Time.AddDays, Time.Truncate, Time.UTC, Day_eq, h24, hu]
  rw [if_neg (by decide)]
  simp only [Time.mk.injEq, and_true]
  omega

/-! ### `createUser` branch by branch -/

theorem createUser_ok_eq (users : Store) (now : Time) (user : User) :
    createUser users now (.ok user) =
      if user.ID = 0 then (users, httpError "ID is required" StatusBadRequest)
      else if user.Age ≤ 0 then
        (users, httpError "Age cannot be less than zero" StatusBadRequest)
      else if passportOk user.Passport = false then
        (users, httpError "Invalid passport number" StatusBadRequest)
      else if user.ID ∈ users then (users, httpError "User already exists" StatusConflict)
      else (users.insert user.ID (calculateTicket now user),
            jsonResponse (Body.user (calculateTicket now user))) := by
  unfold createUser
  by_cases h1 : user.ID = 0
  · simp [h1]
  by_cases h2 : user.Age ≤ 0
  · simp [h1, h2]
  simp only [h1, h2, if_false]
  have hp : passportOk user.Passport =
      !(user.Passport.utf8ByteSize != 9 || !matchDigits user.Passport) := rfl
  by_cases h3 : passportOk user.Passport = false
  · have h3b : (user.Passport.utf8ByteSize != 9 || !matchDigits user.Passport) = true := by
      rw [hp] at h3
      cases hc : (user.Passport.utf8ByteSize != 9 || !matchDigits user.Passport)
      · rw [hc] at h3; cases h3
      · rfl
    rw [if_pos h3b, if_pos h3]
  · have h3b : ¬ (user.Passport.utf8ByteSize != 9 || !matchDigits user.Passport) = true := by
      intro hc
      apply h3
      rw [hp, hc]
      rfl
    rw [if_neg h3b, if_neg h3]
    by_cases h4 : user.ID ∈ users
    · rw [if_pos h4]
      obtain ⟨v, hv⟩ := Option.isSome_iff_exists.1 (AList.lookup_isSome.2 h4)
      rw [hv]
    · rw [if_neg h4, AList.lookup_eq_none.2 h4]
      dsimp only
      rw [calculateTicket_ID]

theorem createUser_status_ok (users : Store) (now : Time) (user : User) :
    (createUser users now (.ok user)).2.status = StatusOK ↔
      (user.ID ≠ 0 ∧ 0 < user.Age ∧ passportOk user.Passport = true ∧ user.ID ∉ users) := by
  rw [createUser_ok_eq]
  by_cases h1 : user.ID = 0
  · simp [h1, httpError, StatusOK, StatusBadRequest]
  by_cases h2 : user.Age ≤ 0
  · simp [h1, h2, httpError, StatusOK, StatusBadRequest]
  by_cases h3 : passportOk user.Passport = false
  · simp [h1, h2, h3, httpError, StatusOK, StatusBadRequest]
  by_cases h4 : user.ID ∈ users
  · simp [h1, h2, h3, h4, httpError, StatusOK, StatusConflict]
  · have h2b : 0 < user.Age := by omega
    simp [h1, h2, h3, h4, h2b, jsonResponse]

theorem createUser_of_status_ok (users : Store) (now : Time) (user : User)
    (h : (createUser users now (.ok user)).2.status = StatusOK) :
    createUser users now (.ok user) =
      (users.insert user.ID (calculateTicket now user),
        jsonResponse (Body.user (calculateTicket now user))) := by
  obtain ⟨h1, h2, h3, h4⟩ := (createUser_status_ok users now user).1 h
  rw [createUser_ok_eq]
  have h2b : ¬ user.Age ≤ 0 := by omega
  simp [h1, h2b, h3, h4]

theorem createUser_of_status_ne_ok (users : Store) (now : Time) (decoded : Except String User)
    (h : (createUser users now decoded).2.status ≠ StatusOK) :
    (createUser users now decoded).1 = users := by
  cases decoded with
  | error err => rfl
  | ok user =>
    rw [createUser_ok_eq] at h ⊢
    by_cases h1 : user.ID = 0
    · simp [h1]
    by_cases h2 : user.Age ≤ 0
    · simp [h1, h2]
    by_cases h3 : passportOk user.Passport = false
    · simp [h1, h2, h3]
    by_cases h4 : user.ID ∈ users
    · simp [h1, h2, h3, h4]
    · simp [h1, h2, h3, h4, jsonResponse] at h

end TicketsApi

/-! ## Validation order, ticket derivation, passport format -/

namespace TicketsApi

/-- C1: on a decoded candidate the response of createUser is decided by the
first failing check in the order identifier, age, passport, duplicate: 400
"ID is required" if the id is 0; else 400 "Age cannot be less than zero" if
the age is not positive; else 400 "Invalid passport number" if the passport is
not nine ASCII digits; else 409 "User already exists" if the id is a key of
the store; else status 200 with the derived record.  In particular a non-zero
id with age 0 gets the age error whatever the passport and the store, and
replacing name and surname leaves an error response unchanged and a success a
success. -/
theorem createUser_first_failing_check (users : Store) (now : Time) (user : User) :
    (createUser users now (.ok user)).2 =
        (if user.ID = 0 then httpError "ID is required" 400
         else if user.Age ≤ 0 then httpError "Age cannot be less than zero" 400
         else if ¬ (user.Passport.length = 9 ∧ ∀ c ∈ user.Passport.data, '0' ≤ c ∧ c ≤ '9') then
           httpError "Invalid passport number" 400
         else if user.ID ∈ users then httpError "User already exists" 409
         else jsonResponse (Body.user (calculateTicket now user)))
      ∧ (jsonResponse (Body.user (calculateTicket now user))).status = 200
      ∧ (user.ID ≠ 0 → user.Age = 0 →
          (createUser users now (.ok user)).2 = httpError "Age cannot be less than zero" 400)
      ∧ (∀ name surname : String,
          (createUser users now (.ok { user with Name := name, Surename := surname })).2 =
            if (createUser users now (.ok user)).2.status = 200 then
              jsonResponse
                (Body.user (calculateTicket now { user with Name := name, Surename := surname }))
            else (createUser users now (.ok user)).2) := by
  have main : ∀ u : User, (createUser users now (.ok u)).2 =
        (if u.ID = 0 then httpError "ID is required" 400
         else if u.Age ≤ 0 then httpError "Age cannot be less than zero" 400
         else if ¬ (u.Passport.length = 9 ∧ ∀ c ∈ u.Passport.data, '0' ≤ c ∧ c ≤ '9') then
           httpError "Invalid passport number" 400
         else if u.ID ∈ users then httpError "User already exists" 409
         else jsonResponse (Body.user (calculateTicket now u))) := by
    intro u
    rw [createUser_ok_eq]
    by_cases h1 : u.ID = 0
    · rw [if_pos h1, if_pos h1]; rfl
    by_cases h2 : u.Age ≤ 0
    · rw [if_neg h1, if_neg h1, if_pos h2, if_pos h2]; rfl
    by_cases h3 : passportOk u.Passport = true
    · have h3s := (passportOk_nine_digits u.Passport).1 h3
      have h3f : ¬ passportOk u.Passport = false := by simp [h3]
      by_cases h4 : u.ID ∈ users
      · rw [if_neg h1, if_neg h1, if_neg h2, if_neg h2, if_neg h3f, if_neg (not_not.2 h3s),
          if_pos h4, if_pos h4]
        rfl
      · rw [if_neg h1, if_neg h1, if_neg h2, if_neg h2, if_neg h3f, if_neg (not_not.2 h3s),
          if_neg h4, if_neg h4]
    · have h3s : ¬ (u.Passport.length = 9 ∧ ∀ c ∈ u.Passport.data, '0' ≤ c ∧ c ≤ '9') :=
        fun hs => h3 ((passportOk_nine_digits u.Passport).2 hs)
      have h3f : passportOk u.Passport = false := by simpa using h3
      rw [if_neg h1, if_neg h1, if_neg h2, if_neg h2, if_pos h3f, if_pos h3s]
      rfl
  refine ⟨main user, rfl, ?_, ?_⟩
  · intro h1 h2
    rw [main user, if_neg h1, if_pos (by omega)]
  · intro name surname
    rw [main { user with Name := name, Surename := surname }, main user]
    dsimp only
    have e1 : ¬ (httpError "ID is required" 400).status = 200 := by decide
    have e2 : ¬ (httpError "Age cannot be less than zero" 400).status = 200 := by decide
    have e3 : ¬ (httpError "Invalid passport number" 400).status = 200 := by decide
    have e4 : ¬ (httpError "User already exists" 409).status = 200 := by decide
    by_cases h1 : user.ID = 0
    · simp only [if_pos h1, if_neg e1]
    by_cases h2 : user.Age ≤ 0
    · simp only [if_neg h1, if_pos h2, if_neg e2]
    by_cases h3 : ¬ (user.Passport.length = 9 ∧ ∀ c ∈ user.Passport.data, '0' ≤ c ∧ c ≤ '9')
    · simp only [if_neg h1, if_neg h2, if_pos h3, if_neg e3]
    by_cases h4 : user.ID ∈ users
    · simp only [if_neg h1, if_neg h2, if_neg h3, if_pos h4, if_neg e4]
    · have e5 : (jsonResponse (Body.user (calculateTicket now user))).status = 200 := rfl
      simp only [if_neg h1, if_neg h2, if_neg h3, if_neg h4, if_pos e5]

/-- Witness of C1: id 5 with age 0 and a malformed passport gets the age
error. -/
theorem createUser_first_failing_check_witness :
    (createUser ∅ ⟨0, 0⟩ (.ok ⟨5, "", "", "x", 0, ⟨0, 0⟩, 0⟩)).2 =
      httpError "Age cannot be less than zero" 400 :=
  (createUser_first_failing_check ∅ ⟨0, 0⟩ ⟨5, "", "", "x", 0, ⟨0, 0⟩, 0⟩).2.2.1
    (by decide) rfl

/-- C2: when createUser succeeds the returned record has price 70 if the age
is below 60 and price 40 otherwise (age 59 gives 70, age 60 gives 40); on any
store without id 1 the candidate Ann Lee, passport 123456789, age 65, is
answered 200 with id 1 and price 40. -/
theorem createUser_price :
    (∀ (users : Store) (now : Time) (user : User),
        (createUser users now (.ok user)).2.status = 200 →
        ∃ r : User, (createUser users now (.ok user)).2 = jsonResponse (Body.user r) ∧
          (user.Age < 60 → r.Price = 70) ∧ (user.Age ≥ 60 → r.Price = 40) ∧
          (user.Age = 59 → r.Price = 70) ∧ (user.Age = 60 → r.Price = 40))
      ∧ (∀ (users : Store) (now : Time) (ticket : Time) (price : ℚ), (1 : Int) ∉ users →
          ∃ r : User,
            (createUser users now (.ok ⟨1, "Ann", "Lee", "123456789", 65, ticket, price⟩)).2 =
              jsonResponse (Body.user r) ∧
            (jsonResponse (Body.user r)).status = 200 ∧ r.ID = 1 ∧ r.Price = 40) := by
  constructor
  · intro users now user h
    refine ⟨calculateTicket now user, ?_, ?_, ?_, ?_, ?_⟩
    · rw [createUser_of_status_ok users now user h]
    all_goals
      intro ha
      rw [calculateTicket_Price]
      first
        | rw [if_pos (by omega)]
        | rw [if_neg (by omega)]
  · intro users now ticket price h
    refine ⟨calculateTicket now ⟨1, "Ann", "Lee", "123456789", 65, ticket, price⟩, ?_, rfl, ?_, ?_⟩
    · rw [createUser_of_status_ok]
      rw [createUser_status_ok]
      refine ⟨?_, ?_, ?_, h⟩
      · show (1 : Int) ≠ 0
        decide
      · show (0 : Int) < 65
        decide
      · show passportOk "123456789" = true
        decide
    · rw [calculateTicket_ID]
    · rw [calculateTicket_Price]
      rfl

/-- Witness of C2: Ann on the empty store, and a candidate of age 59. -/
theorem createUser_price_witness :
    (∃ r : User,
        (createUser ∅ ⟨0, 0⟩ (.ok ⟨1, "Ann", "Lee", "123456789", 65, ⟨0, 0⟩, 0⟩)).2 =
          jsonResponse (Body.user r) ∧
        (jsonResponse (Body.user r)).status = 200 ∧ r.ID = 1 ∧ r.Price = 40)
      ∧ (∃ r : User,
        (createUser ∅ ⟨0, 0⟩ (.ok ⟨2, "Bob", "Ray", "000000000", 59, ⟨0, 0⟩, 0⟩)).2 =
          jsonResponse (Body.user r) ∧ r.Price = 70) :=
  ⟨createUser_price.2 ∅ ⟨0, 0⟩ ⟨0, 0⟩ 0 (by simp),
    (createUser_price.1 ∅ ⟨0, 0⟩ ⟨2, "Bob", "Ray", "000000000", 59, ⟨0, 0⟩, 0⟩ (by decide)).imp
      (fun _ hr => ⟨hr.1, hr.2.1 (by decide)⟩)⟩

/-- C3: when createUser succeeds at clock reading now, whose whole seconds
since the epoch are t, the expiry of the returned record is the UTC instant
(t - t mod 86400) + 3 * 86400 seconds with no fractional part: its time of
day is zero, and it lies more than 2 and at most 3 days after the clock
reading. -/
theorem createUser_expiry (users : Store) (now : Time) (user : User)
    (h : (createUser users now (.ok user)).2.status = 200) :
    ∃ r : User, (createUser users now (.ok user)).2 = jsonResponse (Body.user r) ∧
      r.Ticket.zoneOffset = 0 ∧
      r.Ticket.unixNano =
        ((now.unixNano / 1000000000 - now.unixNano / 1000000000 % 86400) + 3 * 86400)
          * 1000000000 ∧
      r.Ticket.unixNano % (86400 * 1000000000) = 0 ∧
      2 * (86400 * 1000000000) < r.Ticket.unixNano - now.unixNano ∧
      r.Ticket.unixNano - now.unixNano ≤ 3 * (86400 * 1000000000) ∧
      2 * 86400 < r.Ticket.unixNano / 1000000000 - now.unixNano / 1000000000 ∧
      r.Ticket.unixNano / 1000000000 - now.unixNano / 1000000000 ≤ 3 * 86400 := by
  refine ⟨calculateTicket now user, ?_, ?_⟩
  · rw [createUser_of_status_ok users now user h]
  · rw [calculateTicket_Ticket, Day_eq]
    refine ⟨rfl, ?_, ?_, ?_, ?_, ?_, ?_⟩ <;> dsimp only <;> omega

/-- Witness of C3: a create at 2023-11-14T22:13:20.5Z expires at
2023-11-17T00:00:00Z. -/
theorem createUser_expiry_witness :
    ∃ r : User,
      (createUser ∅ ⟨1700000000500000000, 7200⟩
        (.ok ⟨1, "Ann", "Lee", "123456789", 65, ⟨0, 0⟩, 0⟩)).2 = jsonResponse (Body.user r) ∧
      r.Ticket.zoneOffset = 0 ∧ r.Ticket.unixNano = 1700179200 * 1000000000 :=
  (createUser_expiry ∅ ⟨1700000000500000000, 7200⟩
    ⟨1, "Ann", "Lee", "123456789", 65, ⟨0, 0⟩, 0⟩ (by decide)).imp
    (fun _ hr => ⟨hr.1, hr.2.1, hr.2.2.1.trans (by decide)⟩)

/-- C5: the passport check of createUser (byte length 9 and a whole-string
match of one or more characters 0-9) accepts a string exactly when it has
nine characters, each an ASCII digit; 123456789 is accepted, 12345678 and
12345678a are rejected, and so are nine-byte strings with a trailing newline
or with non-ASCII digits. -/
theorem passport_check_nine_ascii_digits :
    (∀ p : String,
        (!(p.utf8ByteSize != 9 || !matchDigits p)) = true ↔
          (p.length = 9 ∧ ∀ c ∈ p.data, '0' ≤ c ∧ c ≤ '9'))
      ∧ (∀ (users : Store) (now : Time) (user : User), user.ID ≠ 0 ∧ 0 < user.Age →
          ((createUser users now (.ok user)).2 = httpError "Invalid passport number" 400 ↔
            ¬ (user.Passport.length = 9 ∧ ∀ c ∈ user.Passport.data, '0' ≤ c ∧ c ≤ '9')))
      ∧ passportOk "123456789" = true
      ∧ passportOk "12345678" = false
      ∧ passportOk "12345678a" = false
      ∧ passportOk "12345678\n" = false
      ∧ passportOk "١٢٣" = false := by
  refine ⟨fun p => passportOk_nine_digits p, ?_, by decide, by decide, by decide, by decide,
    by decide⟩
  intro users now user ⟨h1, h2⟩
  have h2b : ¬ user.Age ≤ 0 := by omega
  rw [createUser_ok_eq, ← passportOk_nine_digits]
  by_cases h3 : passportOk user.Passport = true
  · by_cases h4 : user.ID ∈ users
    · simp [h1, h2b, h3, h4, httpError, StatusConflict]
    · simp [h1, h2b, h3, h4, httpError, jsonResponse]
  · have h3b : passportOk user.Passport = false := by simpa using h3
    simp [h1, h2b, h3b, StatusBadRequest]

/-- Witness of C5: with id 3 and age 30 the eight-digit passport is rejected
with the passport error. -/
theorem passport_check_nine_ascii_digits_witness :
    (createUser ∅ ⟨0, 0⟩ (.ok ⟨3, "", "", "12345678", 30, ⟨0, 0⟩, 0⟩)).2 =
      httpError "Invalid passport number" 400 :=
  ((passport_check_nine_ascii_digits.2.1 ∅ ⟨0, 0⟩ ⟨3, "", "", "12345678", 30, ⟨0, 0⟩, 0⟩
    ⟨by decide, by decide⟩).2 (by decide))

end TicketsApi

/-! ## Frame lemmas for single requests and runs -/

namespace TicketsApi

theorem createUser_preserves_lookup (users : Store) (now : Time) (decoded : Except String User)
    (k : Int) (u : User) (h : users.lookup k = some u) :
    (createUser users now decoded).1.lookup k = some u := by
  by_cases hs : (createUser users now decoded).2.status = StatusOK
  · cases decoded with
    | error err => exact h
    | ok user =>
      obtain ⟨-, -, -, h4⟩ := (createUser_status_ok users now user).1 hs
      rw [createUser_of_status_ok users now user hs]
      have hk : k ≠ user.ID := by
        rintro rfl
        exact h4 (AList.lookup_isSome.1 (by rw [h]; rfl))
      show (users.insert user.ID (calculateTicket now user)).lookup k = some u
      rw [AList.lookup_insert_ne hk, h]
  · rw [createUser_of_status_ne_ok users now decoded hs, h]

theorem handle_preserves_lookup (users : Store) (now : Time) (req : Request)
    (k : Int) (u : User) (h : users.lookup k = some u) :
    (handle users now req).1.lookup k = some u := by
  cases req with
  | list => exact h
  | get idStr => exact h
  | create decoded => exact createUser_preserves_lookup users now decoded k u h

theorem run_preserves_lookup (trace : List (Time × Request)) (users : Store)
    (k : Int) (u : User) (h : users.lookup k = some u) :
    (run users trace).lookup k = some u := by
  induction trace generalizing users with
  | nil => exact h
  | cons e rest ih =>
    obtain ⟨now, req⟩ := e
    exact ih _ (handle_preserves_lookup users now req k u h)

/-- Every entry of the store after a run was there before it or was put there
by a create request of the run that passed all four checks. -/
theorem run_lookup_origin (trace : List (Time × Request)) (users : Store)
    (k : Int) (u : User) (h : (run users trace).lookup k = some u) :
    users.lookup k = some u ∨
      ∃ now user, (now, Request.create (.ok user)) ∈ trace ∧ user.ID ≠ 0 ∧ 0 < user.Age ∧
        passportOk user.Passport = true ∧ k = user.ID ∧ u = calculateTicket now user := by
  induction trace generalizing users with
  | nil => exact Or.inl h
  | cons e rest ih =>
    obtain ⟨now, req⟩ := e
    rcases ih _ h with h0 | ⟨now', user, hm, hrest⟩
    · cases req with
      | list => exact Or.inl h0
      | get idStr => exact Or.inl h0
      | create decoded =>
        by_cases hs : (createUser users now decoded).2.status = StatusOK
        · cases decoded with
          | error err => exact Or.inl h0
          | ok user =>
            obtain ⟨h1, h2, h3, -⟩ := (createUser_status_ok users now user).1 hs
            have h0b : (users.insert user.ID (calculateTicket now user)).lookup k = some u := by
              have := h0
              simp only [handle] at this
              rw [createUser_of_status_ok users now user hs] at this
              exact this
            by_cases hk : k = user.ID
            · subst hk
              rw [AList.lookup_insert] at h0b
              exact Or.inr ⟨now, user, List.mem_cons_self _ _, h1, h2, h3, rfl,
                (Option.some.inj h0b).symm⟩
            · rw [AList.lookup_insert_ne hk] at h0b
              exact Or.inl h0b
        · have h0b := h0
          simp only [handle] at h0b
          rw [createUser_of_status_ne_ok users now decoded hs] at h0b
          exact Or.inl h0b
    · exact Or.inr ⟨now', user, List.mem_cons_of_mem _ hm, hrest⟩

/-- A key is absent after a run exactly when it was absent before and no
create request of the run succeeded with it. -/
theorem run_lookup_eq_none (trace : List (Time × Request)) (users : Store) (k : Int) :
    (run users trace).lookup k = none ↔
      (users.lookup k = none ∧ k ∉ succeededCreates users trace) := by
  induction trace generalizing users with
  | nil => simp [run, succeededCreates]
  | cons e rest ih =>
    obtain ⟨now, req⟩ := e
    cases req with
    | list => exact ih users
    | get idStr => exact ih users
    | create decoded =>
      cases decoded with
      | error err => exact ih users
      | ok user =>
        show (run (createUser users now (.ok user)).1 rest).lookup k = none ↔ _
        rw [ih]
        by_cases hs : (createUser users now (.ok user)).2.status = StatusOK
        · obtain ⟨-, -, -, h4⟩ := (createUser_status_ok users now user).1 hs
          simp only [succeededCreates, if_pos hs, List.mem_cons, not_or]
          rw [createUser_of_status_ok users now user hs]
          simp only [AList.lookup_insert_eq_none]
          tauto
        · simp only [succeededCreates, if_neg hs]
          rw [createUser_of_status_ne_ok users now _ hs]

end TicketsApi

/-! ## Duplicate identifiers and the identifier check -/

namespace TicketsApi

/-- C4: if a create with some identifier succeeds and, after any further
requests, a second create with the same identifier passes the identifier, age
and passport checks, then the second is answered 409 "User already exists",
the store after it is the store before it, and the record stored by the first
request is still the one found under that identifier. -/
theorem duplicate_create_rejected (users : Store) (now₁ now₂ : Time) (first second : User)
    (mid : List (Time × Request))
    (hfirst : (createUser users now₁ (.ok first)).2.status = 200)
    (hid : second.ID = first.ID) (hage : 0 < second.Age)
    (hpass : passportOk second.Passport = true) :
    ∃ r : User, (createUser users now₁ (.ok first)).2 = jsonResponse (Body.user r) ∧
      (createUser (run (createUser users now₁ (.ok first)).1 mid) now₂ (.ok second)).2 =
        httpError "User already exists" 409 ∧
      (createUser (run (createUser users now₁ (.ok first)).1 mid) now₂ (.ok second)).1 =
        run (createUser users now₁ (.ok first)).1 mid ∧
      (run (createUser users now₁ (.ok first)).1 mid).lookup first.ID = some r ∧
      (createUser (run (createUser users now₁ (.ok first)).1 mid) now₂ (.ok second)).1.lookup
        first.ID = some r := by
  have hstored : (createUser users now₁ (.ok first)).1.lookup first.ID
      = some (calculateTicket now₁ first) := by
    rw [createUser_of_status_ok users now₁ first hfirst]
    exact AList.lookup_insert _
  have hmid := run_preserves_lookup mid _ _ _ hstored
  have hmem : second.ID ∈ run (createUser users now₁ (.ok first)).1 mid := by
    rw [hid]
    exact AList.lookup_isSome.1 (by rw [hmid]; rfl)
  have h1 : second.ID ≠ 0 := by
    rw [hid]
    exact ((createUser_status_ok users now₁ first).1 hfirst).1
  have h2 : ¬ second.Age ≤ 0 := by omega
  have h3 : ¬ passportOk second.Passport = false := by simp [hpass]
  have hsecond : createUser (run (createUser users now₁ (.ok first)).1 mid) now₂ (.ok second) =
      (run (createUser users now₁ (.ok first)).1 mid,
        httpError "User already exists" StatusConflict) := by
    rw [createUser_ok_eq, if_neg h1, if_neg h2, if_neg h3, if_pos hmem]
  refine ⟨calculateTicket now₁ first, ?_, ?_, ?_, hmid, ?_⟩
  · rw [createUser_of_status_ok users now₁ first hfirst]
  · rw [hsecond]; rfl
  · rw [hsecond]
  · rw [hsecond]; exact hmid

/-- Witness of C4: Ann is created with id 1 at age 65; after a list request a
second create with id 1, another name and age 30 is refused. -/
theorem duplicate_create_rejected_witness :
    ∃ r : User,
      (createUser ∅ ⟨0, 0⟩ (.ok ⟨1, "Ann", "Lee", "123456789", 65, ⟨0, 0⟩, 0⟩)).2 =
        jsonResponse (Body.user r) ∧
      (createUser
        (run (createUser ∅ ⟨0, 0⟩ (.ok ⟨1, "Ann", "Lee", "123456789", 65, ⟨0, 0⟩, 0⟩)).1
          [(⟨5, 0⟩, Request.list)])
        ⟨9, 0⟩ (.ok ⟨1, "Eve", "Doe", "987654321", 30, ⟨0, 0⟩, 0⟩)).2 =
        httpError "User already exists" 409 :=
  (duplicate_create_rejected ∅ ⟨0, 0⟩ ⟨9, 0⟩ ⟨1, "Ann", "Lee", "123456789", 65, ⟨0, 0⟩, 0⟩
    ⟨1, "Eve", "Doe", "987654321", 30, ⟨0, 0⟩, 0⟩ [(⟨5, 0⟩, Request.list)]
    (by decide) rfl (by decide) (by decide)).imp (fun _ hr => ⟨hr.1, hr.2.1⟩)

/-- C6, as stated, fails: a candidate with the negative identifier -1 (valid
age and passport) is not answered 400 "ID is required" but 200, and the store
reached from the empty store then holds a record whose identifier is not
positive. -/
theorem negative_id_is_created :
    (createUser ∅ ⟨0, 0⟩ (.ok ⟨-1, "Ann", "Lee", "123456789", 65, ⟨0, 0⟩, 0⟩)).2 ≠
        httpError "ID is required" 400
      ∧ (createUser ∅ ⟨0, 0⟩ (.ok ⟨-1, "Ann", "Lee", "123456789", 65, ⟨0, 0⟩, 0⟩)).2.status = 200
      ∧ ∃ u : User,
          (run ∅ [(⟨0, 0⟩, Request.create
            (.ok ⟨-1, "Ann", "Lee", "123456789", 65, ⟨0, 0⟩, 0⟩))]).lookup (-1) = some u ∧
          ¬ (0 < u.ID) := by
  refine ⟨by decide, by decide, ?_⟩
  refine ⟨calculateTicket ⟨0, 0⟩ ⟨-1, "Ann", "Lee", "123456789", 65, ⟨0, 0⟩, 0⟩, by decide,
    by decide⟩

/-- C6, amended: createUser answers a decoded candidate with 400 "ID is
required" exactly when its identifier is 0, so every record in a store
reachable from the empty store has a non-zero identifier. -/
theorem createUser_rejects_exactly_zero_id :
    (∀ (users : Store) (now : Time) (user : User),
        (createUser users now (.ok user)).2 = httpError "ID is required" 400 ↔ user.ID = 0)
      ∧ (∀ (trace : List (Time × Request)) (k : Int) (u : User),
          (run ∅ trace).lookup k = some u → u.ID ≠ 0) := by
  constructor
  · intro users now user
    rw [createUser_ok_eq]
    by_cases h1 : user.ID = 0
    · rw [if_pos h1]
      exact ⟨fun _ => h1, fun _ => rfl⟩
    refine ⟨fun hc => ?_, fun h => absurd h h1⟩
    exfalso
    rw [if_neg h1] at hc
    by_cases h2 : user.Age ≤ 0
    · rw [if_pos h2] at hc
      have hc2 : httpError "Age cannot be less than zero" StatusBadRequest =
          httpError "ID is required" 400 := hc
      exact absurd hc2 (by decide)
    rw [if_neg h2] at hc
    by_cases h3 : passportOk user.Passport = false
    · rw [if_pos h3] at hc
      have hc2 : httpError "Invalid passport number" StatusBadRequest =
          httpError "ID is required" 400 := hc
      exact absurd hc2 (by decide)
    rw [if_neg h3] at hc
    by_cases h4 : user.ID ∈ users
    · rw [if_pos h4] at hc
      have hc2 : httpError "User already exists" StatusConflict =
          httpError "ID is required" 400 := hc
      exact absurd hc2 (by decide)
    · rw [if_neg h4] at hc
      have hc2 : (200 : Nat) = 400 := congrArg Response.status hc
      exact absurd hc2 (by decide)
  · intro trace k u h
    rcases run_lookup_origin trace ∅ k u h with h0 | ⟨now, user, -, h1, -, -, -, rfl⟩
    · simp at h0
    · rw [calculateTicket_ID]
      exact h1

/-- Witness of C6 amended: after creating id -1 the record found under -1 has
a non-zero identifier, and a candidate with id 0 gets the identifier error. -/
theorem createUser_rejects_exactly_zero_id_witness :
    (calculateTicket ⟨0, 0⟩ ⟨-1, "Ann", "Lee", "123456789", 65, ⟨0, 0⟩, 0⟩).ID ≠ 0
      ∧ (createUser ∅ ⟨0, 0⟩ (.ok ⟨0, "Ann", "Lee", "123456789", 65, ⟨0, 0⟩, 0⟩)).2 =
        httpError "ID is required" 400 :=
  ⟨createUser_rejects_exactly_zero_id.2
      [(⟨0, 0⟩, Request.create (.ok ⟨-1, "Ann", "Lee", "123456789", 65, ⟨0, 0⟩, 0⟩))] (-1) _
      (by decide),
    (createUser_rejects_exactly_zero_id.1 ∅ ⟨0, 0⟩
      ⟨0, "Ann", "Lee", "123456789", 65, ⟨0, 0⟩, 0⟩).2 rfl⟩

end TicketsApi

/-! ## Path segments: every 64-bit identifier can be written -/

namespace TicketsApi

theorem digitsValue_append (cs : List Char) (d : Char) (acc : Nat) (hd : d.isDigit = true) :
    digitsValue (cs ++ [d]) acc =
      (digitsValue cs acc).map (fun n => n * 10 + (d.toNat - 48)) := by
  induction cs generalizing acc with
  | nil => simp [digitsValue, hd]
  | cons c cs ih =>
    by_cases hc : c.isDigit = true
    · simp [digitsValue, hc, ih]
    · simp [digitsValue, hc]

theorem digitChar_spec (k : Nat) (hk : k < 10) :
    (Char.ofNat (48 + k)).isDigit = true ∧ (Char.ofNat (48 + k)).toNat - 48 = k := by
  interval_cases k <;> decide

theorem exists_digits (n : Nat) :
    ∃ cs : List Char, cs ≠ [] ∧ cs.all Char.isDigit = true ∧ digitsValue cs 0 = some n := by
  induction n using Nat.strong_induction_on with
  | _ n ih =>
    by_cases hn : n < 10
    · obtain ⟨h1, h2⟩ := digitChar_spec n hn
      refine ⟨[Char.ofNat (48 + n)], by simp, by simp [h1], ?_⟩
      simp [digitsValue, h1, h2]
    · obtain ⟨cs, hne, hall, hv⟩ := ih (n / 10) (by omega)
      obtain ⟨h1, h2⟩ := digitChar_spec (n % 10) (Nat.mod_lt _ (by decide))
      refine ⟨cs ++ [Char.ofNat (48 + n % 10)], by simp, ?_, ?_⟩
      · simp [List.all_append, hall, h1]
      · rw [digitsValue_append _ _ _ h1, hv, h2]
        simp only [Option.map_some', Option.some.injEq]
        omega

theorem Atoi_of_digits (cs : List Char) (n : Nat) (hne : cs ≠ []) (hall : cs.all Char.isDigit = true)
    (hv : digitsValue cs 0 = some n) :
    (n < 2 ^ 63 → Atoi ⟨cs⟩ = some (n : Int)) ∧
    (n ≤ 2 ^ 63 → Atoi ⟨'-' :: cs⟩ = some (-(n : Int))) := by
  have hemp : cs.isEmpty = false := by
    cases cs with
    | nil => exact absurd rfl hne
    | cons c cs => rfl
  constructor
  · intro hn
    cases cs with
    | nil => exact absurd rfl hne
    | cons c cs =>
      have hc : c.isDigit = true := by
        simp only [List.all_cons, Bool.and_eq_true] at hall
        exact hall.1
      have h1 : c ≠ '-' := by
        rintro rfl
        exact absurd hc (by decide)
      have h2 : c ≠ '+' := by
        rintro rfl
        exact absurd hc (by decide)
      unfold Atoi
      split
      · rename_i heq
        exact absurd (List.cons.inj heq).1 h1
      · rename_i heq
        exact absurd (List.cons.inj heq).1 h2
      · have hn2 : n < 9223372036854775808 := by omega
        simp [hv, hn2]
  · intro hn
    have hn2 : n ≤ 9223372036854775808 := by omega
    unfold Atoi
    simp [hemp, hv, hn2]

/-- Every integer in the range of a 64-bit `int` is the value of some path
segment. -/
theorem Atoi_surjective (id : Int) (hlo : -2 ^ 63 ≤ id) (hhi : id < 2 ^ 63) :
    ∃ idStr : String, Atoi idStr = some id := by
  by_cases hneg : id < 0
  · obtain ⟨cs, hne, hall, hv⟩ := exists_digits id.natAbs
    refine ⟨⟨'-' :: cs⟩, ?_⟩
    rw [(Atoi_of_digits cs _ hne hall hv).2 (by omega)]
    congr 1
    omega
  · obtain ⟨cs, hne, hall, hv⟩ := exists_digits id.natAbs
    refine ⟨⟨cs⟩, ?_⟩
    rw [(Atoi_of_digits cs _ hne hall hv).1 (by omega)]
    congr 1
    omega

end TicketsApi

/-! ## Client-supplied ticket fields and the create/get round trip -/

namespace TicketsApi

/-- C7: the expiry date and price a client supplies are ignored: two
candidates that agree on id, name, surname, passport number and age get the
same response and leave the same store, whatever their expiry and price
fields; and two successful creates at the same clock reading with the same age
return the same expiry and the same price. -/
theorem client_ticket_fields_ignored :
    (∀ (users : Store) (now : Time) (u₁ u₂ : User),
        u₁.ID = u₂.ID → u₁.Name = u₂.Name → u₁.Surename = u₂.Surename →
        u₁.Passport = u₂.Passport → u₁.Age = u₂.Age →
        createUser users now (.ok u₁) = createUser users now (.ok u₂))
      ∧ (∀ (users₁ users₂ : Store) (now : Time) (u₁ u₂ : User),
          u₁.Age = u₂.Age →
          (createUser users₁ now (.ok u₁)).2.status = 200 →
          (createUser users₂ now (.ok u₂)).2.status = 200 →
          ∃ r₁ r₂ : User,
            (createUser users₁ now (.ok u₁)).2 = jsonResponse (Body.user r₁) ∧
            (createUser users₂ now (.ok u₂)).2 = jsonResponse (Body.user r₂) ∧
            r₁.Ticket = r₂.Ticket ∧ r₁.Price = r₂.Price) := by
  constructor
  · intro users now u₁ u₂ hid hname hsur hpass hage
    have hcalc : calculateTicket now u₁ = calculateTicket now u₂ := by
      rw [calculateTicket_eq, calculateTicket_eq, hid, hname, hsur, hpass, hage]
    rw [createUser_ok_eq, createUser_ok_eq, hid, hpass, hage, hcalc]
  · intro users₁ users₂ now u₁ u₂ hage h₁ h₂
    refine ⟨calculateTicket now u₁, calculateTicket now u₂, ?_, ?_, ?_, ?_⟩
    · rw [createUser_of_status_ok users₁ now u₁ h₁]
    · rw [createUser_of_status_ok users₂ now u₂ h₂]
    · rw [calculateTicket_Ticket, calculateTicket_Ticket]
    · rw [calculateTicket_Price, calculateTicket_Price, hage]

/-- Witness of C7: Ann with a supplied expiry and price 1.5 and Ann without
them get the same answer and store; Ann and Bob, both 65, get the same ticket. -/
theorem client_ticket_fields_ignored_witness :
    createUser ∅ ⟨7, 0⟩ (.ok ⟨1, "Ann", "Lee", "123456789", 65, ⟨99, 3600⟩, 3 / 2⟩) =
        createUser ∅ ⟨7, 0⟩ (.ok ⟨1, "Ann", "Lee", "123456789", 65, ⟨0, 0⟩, 0⟩)
      ∧ ∃ r₁ r₂ : User,
          (createUser ∅ ⟨7, 0⟩ (.ok ⟨1, "Ann", "Lee", "123456789", 65, ⟨99, 3600⟩, 3 / 2⟩)).2 =
            jsonResponse (Body.user r₁) ∧
          (createUser ∅ ⟨7, 0⟩ (.ok ⟨2, "Bob", "Ray", "000000000", 65, ⟨0, 0⟩, 0⟩)).2 =
            jsonResponse (Body.user r₂) ∧
          r₁.Ticket = r₂.Ticket ∧ r₁.Price = r₂.Price :=
  ⟨client_ticket_fields_ignored.1 ∅ ⟨7, 0⟩ ⟨1, "Ann", "Lee", "123456789", 65, ⟨99, 3600⟩, 3 / 2⟩
      ⟨1, "Ann", "Lee", "123456789", 65, ⟨0, 0⟩, 0⟩ rfl rfl rfl rfl rfl,
    client_ticket_fields_ignored.2 ∅ ∅ ⟨7, 0⟩
      ⟨1, "Ann", "Lee", "123456789", 65, ⟨99, 3600⟩, 3 / 2⟩
      ⟨2, "Bob", "Ray", "000000000", 65, ⟨0, 0⟩, 0⟩ rfl (by decide) (by decide)⟩

/-- C8: when createUser succeeds and returns the record r, getUser on the
resulting store, for any path segment that denotes r's identifier, answers 200
with exactly r; and r has the candidate's id, name, surname, passport number
and age, the expiry three days after the UTC midnight of the clock reading,
and the price 40 from age 60 on and 70 below; such a path segment exists
whenever the identifier is in the range of a 64-bit int. -/
theorem create_then_get (users : Store) (now : Time) (user : User)
    (h : (createUser users now (.ok user)).2.status = 200) :
    ∃ r : User, (createUser users now (.ok user)).2 = jsonResponse (Body.user r) ∧
      (∀ idStr : String, Atoi idStr = some r.ID →
        getUser (createUser users now (.ok user)).1 idStr = jsonResponse (Body.user r) ∧
        (getUser (createUser users now (.ok user)).1 idStr).status = 200) ∧
      r.ID = user.ID ∧ r.Name = user.Name ∧ r.Surename = user.Surename ∧
      r.Passport = user.Passport ∧ r.Age = user.Age ∧
      r.Ticket = ⟨now.unixNano - now.unixNano % Day + 3 * Day, 0⟩ ∧
      r.Price = (if user.Age ≥ 60 then 40 else 70) ∧
      (-2 ^ 63 ≤ user.ID → user.ID < 2 ^ 63 → ∃ idStr : String, Atoi idStr = some r.ID) := by
  refine ⟨calculateTicket now user, ?_, ?_, ?_⟩
  · rw [createUser_of_status_ok users now user h]
  · intro idStr hid
    rw [createUser_of_status_ok users now user h]
    rw [calculateTicket_ID] at hid
    have hl : (users.insert user.ID (calculateTicket now user)).lookup user.ID =
        some (calculateTicket now user) := AList.lookup_insert _
    have hg : getUser (users.insert user.ID (calculateTicket now user)) idStr =
        jsonResponse (Body.user (calculateTicket now user)) := by
      unfold getUser
      rw [hid]
      dsimp only
      rw [hl]
    exact ⟨hg, by rw [hg]; rfl⟩
  · refine ⟨calculateTicket_ID _ _, ?_, ?_, calculateTicket_Passport _ _, calculateTicket_Age _ _,
      calculateTicket_Ticket _ _, calculateTicket_Price _ _, ?_⟩
    · rw [calculateTicket_eq]
    · rw [calculateTicket_eq]
    · intro hlo hhi
      rw [calculateTicket_ID]
      exact Atoi_surjective user.ID hlo hhi

/-- Witness of C8: Ann is created with id 1 and fetched with the path segment
"1". -/
theorem create_then_get_witness :
    ∃ r : User,
      (createUser ∅ ⟨7, 0⟩ (.ok ⟨1, "Ann", "Lee", "123456789", 65, ⟨0, 0⟩, 0⟩)).2 =
        jsonResponse (Body.user r) ∧
      getUser (createUser ∅ ⟨7, 0⟩ (.ok ⟨1, "Ann", "Lee", "123456789", 65, ⟨0, 0⟩, 0⟩)).1 "1" =
        jsonResponse (Body.user r) ∧
      r.Name = "Ann" ∧ r.Price = 40 :=
  (create_then_get ∅ ⟨7, 0⟩ ⟨1, "Ann", "Lee", "123456789", 65, ⟨0, 0⟩, 0⟩ (by decide)).imp
    (fun r hr => ⟨hr.1, (hr.2.1 "1" (hr.2.2.1.symm ▸ (by decide))).1, hr.2.2.2.1,
      hr.2.2.2.2.2.2.2.2.1⟩)

end TicketsApi

/-! ## Not found, and the frame of every request -/

namespace TicketsApi

/-- The response of getUser on a path segment that denotes the integer id. -/
theorem getUser_of_Atoi (users : Store) (idStr : String) (id : Int) (h : Atoi idStr = some id) :
    getUser users idStr =
      match users.lookup id with
      | none => httpError "User not found" StatusNotFound
      | some user => jsonResponse (Body.user user) := by
  unfold getUser
  rw [h]

/-- C9: for a path segment that denotes the integer id, getUser answers 404
exactly when id is not a key of the store, and then with the message "User
not found"; hence after any sequence of list, get and create requests from
the empty store in which no create with that id succeeded, getUser answers
404 "User not found".  Every integer in the range of a 64-bit int is denoted
by some path segment. -/
theorem getUser_not_found :
    (∀ (users : Store) (idStr : String) (id : Int), Atoi idStr = some id →
        ((getUser users idStr).status = 404 ↔ id ∉ users) ∧
        (getUser users idStr = httpError "User not found" 404 ↔ id ∉ users))
      ∧ (∀ (trace : List (Time × Request)) (idStr : String) (id : Int),
          Atoi idStr = some id → id ∉ succeededCreates ∅ trace →
          getUser (run ∅ trace) idStr = httpError "User not found" 404)
      ∧ (∀ id : Int, -2 ^ 63 ≤ id → id < 2 ^ 63 → ∃ idStr : String, Atoi idStr = some id) := by
  have key : ∀ (users : Store) (idStr : String) (id : Int), Atoi idStr = some id →
      ((getUser users idStr).status = 404 ↔ id ∉ users) ∧
      (getUser users idStr = httpError "User not found" 404 ↔ id ∉ users) := by
    intro users idStr id h
    rw [getUser_of_Atoi users idStr id h, ← AList.lookup_eq_none]
    cases hl : users.lookup id with
    | none => exact ⟨⟨fun _ => rfl, fun _ => rfl⟩, ⟨fun _ => rfl, fun _ => rfl⟩⟩
    | some u =>
      refine ⟨⟨fun hc => ?_, fun hc => by cases hc⟩, ⟨fun hc => ?_, fun hc => by cases hc⟩⟩
      · have hc2 : (200 : Nat) = 404 := hc
        exact absurd hc2 (by decide)
      · have hc2 : (200 : Nat) = 404 := congrArg Response.status hc
        exact absurd hc2 (by decide)
  refine ⟨key, ?_, Atoi_surjective⟩
  intro trace idStr id h hnot
  rw [(key (run ∅ trace) idStr id h).2, ← AList.lookup_eq_none, run_lookup_eq_none]
  exact ⟨AList.lookup_empty id, hnot⟩

/-- Witness of C9: after id 1 is created, id 0 is refused and id 1 is
looked up, the path segment "2" is answered 404 "User not found". -/
theorem getUser_not_found_witness :
    getUser
        (run ∅
          [(⟨0, 0⟩, Request.create (.ok ⟨1, "Ann", "Lee", "123456789", 65, ⟨0, 0⟩, 0⟩)),
            (⟨1, 0⟩, Request.create (.ok ⟨0, "Bob", "Ray", "000000000", 20, ⟨0, 0⟩, 0⟩)),
            (⟨2, 0⟩, Request.get "1")])
        "2" = httpError "User not found" 404
      ∧ ((getUser ∅ "2").status = 404 ↔ (2 : Int) ∉ (∅ : Store)) :=
  ⟨getUser_not_found.2.1
      [(⟨0, 0⟩, Request.create (.ok ⟨1, "Ann", "Lee", "123456789", 65, ⟨0, 0⟩, 0⟩)),
        (⟨1, 0⟩, Request.create (.ok ⟨0, "Bob", "Ray", "000000000", 20, ⟨0, 0⟩, 0⟩)),
        (⟨2, 0⟩, Request.get "1")]
      "2" 2 (by decide) (by decide),
    (getUser_not_found.1 ∅ "2" 2 (by decide)).1⟩

/-- C10: no request updates or deletes a stored record: after any request
every key present before is still present with the same record; the store
changes exactly when the request is a create that is answered 200; and then
the new store is the old one with the single new entry of the returned
record, under its identifier, which was absent before. -/
theorem requests_keep_stored_records (users : Store) (now : Time) (req : Request) :
    (∀ (k : Int) (u : User), users.lookup k = some u →
        (handle users now req).1.lookup k = some u)
      ∧ ((handle users now req).1 ≠ users ↔
          ∃ user, req = Request.create (.ok user) ∧ (handle users now req).2.status = 200)
      ∧ ((handle users now req).1 ≠ users →
          ∃ r : User, (handle users now req).2 = jsonResponse (Body.user r) ∧
            r.ID ∉ users ∧
            (handle users now req).1 = users.insert r.ID r ∧
            (handle users now req).1.entries = ⟨r.ID, r⟩ :: users.entries ∧
            (handle users now req).1.lookup r.ID = some r ∧
            ∀ k : Int, k ≠ r.ID → (handle users now req).1.lookup k = users.lookup k) := by
  have hsucc : ∀ user : User, (createUser users now (.ok user)).2.status = StatusOK →
      (createUser users now (.ok user)).1 ≠ users ∧
      ∃ r : User, (createUser users now (.ok user)).2 = jsonResponse (Body.user r) ∧
        r.ID ∉ users ∧
        (createUser users now (.ok user)).1 = users.insert r.ID r ∧
        (createUser users now (.ok user)).1.entries = ⟨r.ID, r⟩ :: users.entries ∧
        (createUser users now (.ok user)).1.lookup r.ID = some r ∧
        ∀ k : Int, k ≠ r.ID → (createUser users now (.ok user)).1.lookup k = users.lookup k := by
    intro user hs
    obtain ⟨-, -, -, h4⟩ := (createUser_status_ok users now user).1 hs
    rw [createUser_of_status_ok users now user hs]
    have hl : (users.insert user.ID (calculateTicket now user)).lookup user.ID =
        some (calculateTicket now user) := AList.lookup_insert _
    constructor
    · intro hc
      have hc2 : (users.insert user.ID (calculateTicket now user)).lookup user.ID =
          users.lookup user.ID := by
        rw [show (users.insert user.ID (calculateTicket now user), jsonResponse
          (Body.user (calculateTicket now user))).1 = users.insert user.ID
            (calculateTicket now user) from rfl] at hc
        rw [hc]
      rw [hl, AList.lookup_eq_none.2 h4] at hc2
      cases hc2
    · refine ⟨calculateTicket now user, rfl, ?_, ?_, ?_, ?_, ?_⟩
      · rw [calculateTicket_ID]; exact h4
      · rw [calculateTicket_ID]
      · rw [calculateTicket_ID]
        exact AList.insert_entries_of_neg h4
      · rw [calculateTicket_ID]; exact hl
      · intro k hk
        rw [calculateTicket_ID] at hk
        exact AList.lookup_insert_ne hk
  refine ⟨fun k u h => handle_preserves_lookup users now req k u h, ?_, ?_⟩
  · constructor
    · intro hne
      cases req with
      | list => exact absurd rfl hne
      | get idStr => exact absurd rfl hne
      | create decoded =>
        cases decoded with
        | error err => exact absurd rfl hne
        | ok user =>
          refine ⟨user, rfl, ?_⟩
          by_contra hs
          exact hne (createUser_of_status_ne_ok users now _ hs)
    · rintro ⟨user, rfl, hs⟩
      exact (hsucc user hs).1
  · intro hne
    cases req with
    | list => exact absurd rfl hne
    | get idStr => exact absurd rfl hne
    | create decoded =>
      cases decoded with
      | error err => exact absurd rfl hne
      | ok user =>
        have hs : (createUser users now (.ok user)).2.status = StatusOK := by
          by_contra hs
          exact hne (createUser_of_status_ne_ok users now _ hs)
        exact (hsucc user hs).2

/-- Witness of C10: creating id 2 on a store that holds id 1 changes the
store, and id 1 keeps its record. -/
theorem requests_keep_stored_records_witness :
    (handle (run ∅ [(⟨0, 0⟩, Request.create (.ok ⟨1, "Ann", "Lee", "123456789", 65, ⟨0, 0⟩, 0⟩))])
        ⟨5, 0⟩ (Request.create (.ok ⟨2, "Bob", "Ray", "000000000", 20, ⟨0, 0⟩, 0⟩))).1.lookup 1 =
      some (calculateTicket ⟨0, 0⟩ ⟨1, "Ann", "Lee", "123456789", 65, ⟨0, 0⟩, 0⟩)
      ∧ (handle
          (run ∅ [(⟨0, 0⟩, Request.create (.ok ⟨1, "Ann", "Lee", "123456789", 65, ⟨0, 0⟩, 0⟩))])
          ⟨5, 0⟩ (Request.create (.ok ⟨2, "Bob", "Ray", "000000000", 20, ⟨0, 0⟩, 0⟩))).1 ≠
        run ∅ [(⟨0, 0⟩, Request.create (.ok ⟨1, "Ann", "Lee", "123456789", 65, ⟨0, 0⟩, 0⟩))] :=
  ⟨(requests_keep_stored_records _ ⟨5, 0⟩ _).1 1 _ (by decide),
    (requests_keep_stored_records _ ⟨5, 0⟩ _).2.1.2 ⟨_, rfl, by decide⟩⟩

end TicketsApi

/-! ## Listing -/

namespace TicketsApi

theorem foldl_appendUser (l : List (Σ _ : Int, User)) (acc : List User) :
    l.foldl (fun a e => appendUser a e.2) (some acc) = some (acc ++ l.map (fun e => e.2)) := by
  induction l generalizing acc with
  | nil => simp
  | cons e l ih =>
    show l.foldl (fun a e => appendUser a e.2) (appendUser (some acc) e.2) = _
    have h : appendUser (some acc) e.2 = some (acc ++ [e.2]) := rfl
    rw [h, ih]
    simp

theorem listUsers_eq (users : Store) :
    listUsers users = jsonResponse (Body.userList (users.entries.map (fun e => e.2))) := by
  unfold listUsers makeUserSlice
  dsimp only
  rw [foldl_appendUser]
  rfl

theorem lookup_of_mem_entries (users : Store) (e : Σ _ : Int, User) (h : e ∈ users.entries) :
    users.lookup e.1 = some e.2 := by
  obtain ⟨k, u⟩ := e
  exact AList.mem_lookup_iff.2 h

/-- C11: listUsers answers 200 with a non-nil sequence of records that holds,
for each key of the store taken exactly once, the record stored under it, and
nothing else: its length is the number of keys, its members are the stored
records, and on the empty store it is the empty array, not null. -/
theorem listUsers_each_record_once (users : Store) :
    ∃ us : List User,
      listUsers users = jsonResponse (Body.userList us) ∧
      (listUsers users).status = 200 ∧
      (listUsers users).body ≠ Body.null ∧
      us.length = users.keys.length ∧
      (∃ ks : List Int, ks.Nodup ∧ (∀ k : Int, k ∈ ks ↔ k ∈ users) ∧
        ks.map (fun k => users.lookup k) = us.map some) ∧
      (∀ u : User, u ∈ us ↔ ∃ k : Int, users.lookup k = some u) ∧
      listUsers ∅ = jsonResponse (Body.userList []) ∧
      listUsers ∅ ≠ jsonResponse Body.null := by
  refine ⟨users.entries.map (fun e => e.2), listUsers_eq users, ?_, ?_, ?_, ?_, ?_, ?_, ?_⟩
  · rw [listUsers_eq]; rfl
  · rw [listUsers_eq]
    intro hc
    cases hc
  · simp [AList.keys, List.keys]
  · refine ⟨users.keys, users.keys_nodup, fun k => AList.mem_keys.symm, ?_⟩
    show (users.entries.map Sigma.fst).map (fun k => users.lookup k) = _
    rw [List.map_map, List.map_map]
    apply List.map_congr_left
    intro e he
    exact lookup_of_mem_entries users e he
  · intro u
    constructor
    · intro hu
      obtain ⟨e, he, rfl⟩ := List.mem_map.1 hu
      exact ⟨e.1, lookup_of_mem_entries users e he⟩
    · rintro ⟨k, hk⟩
      exact List.mem_map.2 ⟨⟨k, u⟩, AList.mem_lookup_iff.1 hk, rfl⟩
  · decide
  · decide

end TicketsApi

/-! ## Path segments that are not integers -/

namespace TicketsApi

theorem digitsValue_of_digits (cs : List Char) (acc : Nat) (h : cs.all Char.isDigit = true) :
    digitsValue cs acc = some (cs.foldl (fun a c => a * 10 + (c.toNat - 48)) acc) := by
  induction cs generalizing acc with
  | nil => rfl
  | cons c cs ih =>
    simp only [List.all_cons, Bool.and_eq_true] at h
    simp only [digitsValue, h.1, if_true, List.foldl_cons]
    exact ih _ h.2

theorem digitsValue_some_digits (cs : List Char) (acc n : Nat) (h : digitsValue cs acc = some n) :
    cs.all Char.isDigit = true := by
  induction cs generalizing acc with
  | nil => rfl
  | cons c cs ih =>
    by_cases hc : c.isDigit = true
    · simp only [digitsValue, hc, if_true] at h
      simp only [List.all_cons, hc, Bool.true_and]
      exact ih _ h
    · simp [digitsValue, hc] at h

theorem all_isDigit_iff (ds : List Char) :
    ds.all Char.isDigit = true ↔ ∀ c ∈ ds, '0' ≤ c ∧ c ≤ '9' := by
  simp only [List.all_eq_true, isDigit_iff]

/-- The result of Atoi on a sign followed by digits. -/
theorem Atoi_sign_digits (sign ds : List Char)
    (hs : sign = [] ∨ sign = ['+'] ∨ sign = ['-']) (hne : ds ≠ [])
    (hd : ∀ c ∈ ds, '0' ≤ c ∧ c ≤ '9') :
    Atoi ⟨sign ++ ds⟩ =
      if -2 ^ 63 ≤ signedValue sign ds ∧ signedValue sign ds < 2 ^ 63 then
        some (signedValue sign ds)
      else none := by
  have hall := (all_isDigit_iff ds).2 hd
  have hv : digitsValue ds 0 = some (decimalValue ds) := digitsValue_of_digits ds 0 hall
  have hemp : ds.isEmpty = false := by
    cases ds with
    | nil => exact absurd rfl hne
    | cons c cs => rfl
  rcases hs with rfl | rfl | rfl
  · cases ds with
    | nil => exact absurd rfl hne
    | cons c cs =>
      have hc : c.isDigit = true := by
        simp only [List.all_cons, Bool.and_eq_true] at hall
        exact hall.1
      have h1 : c ≠ '-' := by
        rintro rfl
        exact absurd hc (by decide)
      have h2 : c ≠ '+' := by
        rintro rfl
        exact absurd hc (by decide)
      have hsv : signedValue [] (c :: cs) = (decimalValue (c :: cs) : Int) := rfl
      rw [hsv]
      unfold Atoi
      split
      · rename_i heq
        exact absurd (List.cons.inj heq).1 h1
      · rename_i heq
        exact absurd (List.cons.inj heq).1 h2
      · simp only [List.nil_append, hemp, hv, Bool.false_eq_true, if_false]
        by_cases hr : decimalValue (c :: cs) < 2 ^ 63
        · rw [if_pos hr, if_pos (by constructor <;> omega)]
        · rw [if_neg hr, if_neg (by omega)]
  · have hsv : signedValue ['+'] ds = (decimalValue ds : Int) := rfl
    rw [hsv]
    unfold Atoi
    simp only [List.singleton_append, hemp, hv, Bool.false_eq_true, if_false]
    by_cases hr : decimalValue ds < 2 ^ 63
    · rw [if_pos hr, if_pos (by constructor <;> omega)]
    · rw [if_neg hr, if_neg (by omega)]
  · have hsv : signedValue ['-'] ds = -(decimalValue ds : Int) := rfl
    rw [hsv]
    unfold Atoi
    simp only [List.singleton_append, hemp, hv, Bool.false_eq_true, if_false, if_true]
    by_cases hr : decimalValue ds ≤ 2 ^ 63
    · rw [if_pos hr, if_pos (by constructor <;> omega)]
    · rw [if_neg hr, if_neg (by omega)]

/-- A path segment that Atoi accepts is an optional sign followed by digits. -/
theorem Atoi_some_isDecimalInteger (s : String) (v : Int) (h : Atoi s = some v) : IsDecimalInteger s := by
  unfold Atoi at h
  split at h
  · rename_i rest heq
    by_cases hemp : rest.isEmpty = true
    · simp [hemp] at h
    · simp only [hemp, if_false] at h
      cases hv : digitsValue rest 0 with
      | none => simp [hv] at h
      | some n =>
        refine ⟨['-'], rest, heq, Or.inr (Or.inr rfl), ?_,
          (all_isDigit_iff rest).1 (digitsValue_some_digits rest 0 n hv)⟩
        rintro rfl
        exact hemp rfl
  · rename_i rest heq
    by_cases hemp : rest.isEmpty = true
    · simp [hemp] at h
    · simp only [hemp, if_false] at h
      cases hv : digitsValue rest 0 with
      | none => simp [hv] at h
      | some n =>
        refine ⟨['+'], rest, heq, Or.inr (Or.inl rfl), ?_,
          (all_isDigit_iff rest).1 (digitsValue_some_digits rest 0 n hv)⟩
        rintro rfl
        exact hemp rfl
  · rename_i cs _ _
    by_cases hemp : s.data.isEmpty = true
    · simp [hemp] at h
    · simp only [hemp, if_false] at h
      cases hv : digitsValue s.data 0 with
      | none => simp [hv] at h
      | some n =>
        refine ⟨[], s.data, rfl, Or.inl rfl, ?_,
          (all_isDigit_iff s.data).1 (digitsValue_some_digits s.data 0 n hv)⟩
        intro hnil
        exact hemp (by rw [hnil]; rfl)

end TicketsApi

namespace TicketsApi

/-- C12: for every store, a path segment that is not an optional sign
followed by one or more ASCII digits is answered 400 "Invalid ID" by getUser:
not 404 and not a 5xx status, the same on every store, and the store is left
as it was (the segments abc, the empty one, 1.5 and 12x are such).  A path
segment that is a sign-and-digits integer in the range of a 64-bit int is
answered 200 or 404, never 400. -/
theorem getUser_invalid_path_segment :
    (∀ (users : Store) (now : Time) (idStr : String), ¬ IsDecimalInteger idStr →
        getUser users idStr = httpError "Invalid ID" 400 ∧
        (getUser users idStr).status = 400 ∧
        ¬ (500 ≤ (getUser users idStr).status) ∧
        (getUser users idStr).status ≠ 404 ∧
        (∀ users₂ : Store, getUser users₂ idStr = getUser users idStr) ∧
        (handle users now (Request.get idStr)).1 = users)
      ∧ (∀ (users : Store) (sign ds : List Char),
          (sign = [] ∨ sign = ['+'] ∨ sign = ['-']) → ds ≠ [] →
          (∀ c ∈ ds, '0' ≤ c ∧ c ≤ '9') →
          -2 ^ 63 ≤ signedValue sign ds → signedValue sign ds < 2 ^ 63 →
          ((getUser users ⟨sign ++ ds⟩).status = 200 ∨ (getUser users ⟨sign ++ ds⟩).status = 404) ∧
          (getUser users ⟨sign ++ ds⟩).status ≠ 400)
      ∧ (∀ users : Store,
          getUser users "abc" = httpError "Invalid ID" 400 ∧
          getUser users "" = httpError "Invalid ID" 400 ∧
          getUser users "1.5" = httpError "Invalid ID" 400 ∧
          getUser users "12x" = httpError "Invalid ID" 400) := by
  have hnone : ∀ (users : Store) (idStr : String), Atoi idStr = none →
      getUser users idStr = httpError "Invalid ID" 400 := by
    intro users idStr h
    unfold getUser
    rw [h]
    rfl
  refine ⟨?_, ?_, ?_⟩
  · intro users now idStr hsyn
    have hA : Atoi idStr = none := by
      cases hv : Atoi idStr with
      | none => rfl
      | some v => exact absurd (Atoi_some_isDecimalInteger idStr v hv) hsyn
    refine ⟨hnone users idStr hA, ?_, ?_, ?_, ?_, rfl⟩
    · rw [hnone users idStr hA]; rfl
    · rw [hnone users idStr hA]; decide
    · rw [hnone users idStr hA]; decide
    · intro users₂
      rw [hnone users idStr hA, hnone users₂ idStr hA]
  · intro users sign ds hs hne hd hlo hhi
    have hA : Atoi ⟨sign ++ ds⟩ = some (signedValue sign ds) := by
      rw [Atoi_sign_digits sign ds hs hne hd, if_pos ⟨hlo, hhi⟩]
    rw [getUser_of_Atoi users _ _ hA]
    cases users.lookup (signedValue sign ds) with
    | none => exact ⟨Or.inr rfl, by decide⟩
    | some u =>
      exact ⟨Or.inl rfl, fun hc => absurd (show (200 : Nat) = 400 from hc) (by decide)⟩
  · intro users
    exact ⟨hnone users "abc" (by decide), hnone users "" (by decide),
      hnone users "1.5" (by decide), hnone users "12x" (by decide)⟩

/-- Witness of C12: the segment x is not an integer and is answered 400; the
segment -7 is an integer in range and is answered 404 on the empty store. -/
theorem getUser_invalid_path_segment_witness :
    getUser ∅ "x" = httpError "Invalid ID" 400
      ∧ ((getUser ∅ "-7").status = 200 ∨ (getUser ∅ "-7").status = 404) :=
  ⟨(getUser_invalid_path_segment.1 ∅ ⟨0, 0⟩ "x" (by
      rintro ⟨sign, ds, h, hs, -, hd⟩
      rcases hs with rfl | rfl | rfl
      · have hx : 'x' ∈ ds := by
          rw [← List.nil_append ds, ← h]
          exact List.mem_singleton.2 rfl
        exact absurd (hd 'x' hx).2 (by decide)
      · exact absurd (List.cons.inj h).1 (by decide)
      · exact absurd (List.cons.inj h).1 (by decide))).1,
    (getUser_invalid_path_segment.2.1 ∅ ['-'] ['7'] (Or.inr (Or.inr rfl)) (by decide)
      (by decide) (by decide) (by decide)).1⟩

/-! ## The store invariant -/

theorem calculateTicket_wellFormed (now : Time) (user : User) (h1 : user.ID ≠ 0)
    (h2 : 0 < user.Age) (h3 : passportOk user.Passport = true) :
    EntryWellFormed user.ID (calculateTicket now user) := by
  unfold EntryWellFormed
  rw [calculateTicket_ID, calculateTicket_Age, calculateTicket_Passport, calculateTicket_Price,
    calculateTicket_Ticket, Day_eq]
  refine ⟨rfl, h1, h2, (passportOk_nine_digits _).1 h3, rfl, ?_, rfl⟩
  dsimp only
  omega

theorem storeWellFormed_iff_lookup (users : Store) :
    StoreWellFormed users ↔ ∀ (k : Int) (u : User), users.lookup k = some u → EntryWellFormed k u := by
  constructor
  · intro h k u hk
    exact h ⟨k, u⟩ (AList.mem_lookup_iff.1 hk)
  · intro h e he
    exact h e.1 e.2 (lookup_of_mem_entries users e he)

/-- C13: store well-formedness is an invariant of every reachable state: the
empty store is well formed, every request takes a well-formed store to a
well-formed store, and so in every store reached from the empty store by
list, get and create requests each entry has a key equal to the identifier of
its record, a non-zero identifier, a positive age, a passport of nine ASCII
digits, the price 40 from age 60 on and 70 below, and an expiry that is a
multiple of 86400 seconds. -/
theorem reachable_store_wellFormed :
    StoreWellFormed ∅
      ∧ (∀ (users : Store) (now : Time) (req : Request),
          StoreWellFormed users → StoreWellFormed (handle users now req).1)
      ∧ (∀ trace : List (Time × Request), StoreWellFormed (run ∅ trace))
      ∧ (∀ (trace : List (Time × Request)) (k : Int) (u : User),
          (run ∅ trace).lookup k = some u →
          k = u.ID ∧ u.ID ≠ 0 ∧ 0 < u.Age ∧
          (u.Passport.length = 9 ∧ ∀ c ∈ u.Passport.data, '0' ≤ c ∧ c ≤ '9') ∧
          u.Price = (if u.Age ≥ 60 then 40 else 70) ∧
          u.Ticket.unixNano % (86400 * 1000000000) = 0) := by
  have hrun : ∀ (trace : List (Time × Request)) (k : Int) (u : User),
      (run ∅ trace).lookup k = some u → EntryWellFormed k u := by
    intro trace k u h
    rcases run_lookup_origin trace ∅ k u h with h0 | ⟨now, user, -, h1, h2, h3, rfl, rfl⟩
    · simp at h0
    · exact calculateTicket_wellFormed now user h1 h2 h3
  refine ⟨by decide, ?_, ?_, ?_⟩
  · intro users now req hwf
    rw [storeWellFormed_iff_lookup] at hwf ⊢
    intro k u hk
    have hk2 : (run users [(now, req)]).lookup k = some u := hk
    rcases run_lookup_origin [(now, req)] users k u hk2 with
      h0 | ⟨now₂, user, -, h1, h2, h3, rfl, rfl⟩
    · exact hwf k u h0
    · exact calculateTicket_wellFormed now₂ user h1 h2 h3
  · intro trace
    rw [storeWellFormed_iff_lookup]
    exact hrun trace
  · intro trace k u h
    obtain ⟨e1, e2, e3, e4, e5, e6, -⟩ := hrun trace k u h
    exact ⟨e1, e2, e3, e4, e5, e6⟩

/-- Witness of C13: after Ann (age 65) and Bob (age 20) are created and a
third create is refused, the store is well formed and the record under 2 has
price 70. -/
theorem reachable_store_wellFormed_witness :
    StoreWellFormed
        (handle
          (run ∅ [(⟨1700000000500000000, 0⟩,
            Request.create (.ok ⟨1, "Ann", "Lee", "123456789", 65, ⟨0, 0⟩, 0⟩))])
          ⟨1700090000000000000, 0⟩
          (Request.create (.ok ⟨2, "Bob", "Ray", "000000000", 20, ⟨5, 0⟩, 1⟩))).1
      ∧ (calculateTicket ⟨1700090000000000000, 0⟩
          ⟨2, "Bob", "Ray", "000000000", 20, ⟨5, 0⟩, 1⟩).Price = 70 :=
  ⟨reachable_store_wellFormed.2.1 _ ⟨1700090000000000000, 0⟩ _
      (reachable_store_wellFormed.2.2.1 _),
    (reachable_store_wellFormed.2.2.2
      [(⟨1700000000500000000, 0⟩,
          Request.create (.ok ⟨1, "Ann", "Lee", "123456789", 65, ⟨0, 0⟩, 0⟩)),
        (⟨1700090000000000000, 0⟩,
          Request.create (.ok ⟨2, "Bob", "Ray", "000000000", 20, ⟨5, 0⟩, 1⟩)),
        (⟨1700090000000000001, 0⟩,
          Request.create (.ok ⟨2, "Eve", "Doe", "111111111", 70, ⟨5, 0⟩, 1⟩))]
      2 _ (by decide)).2.2.2.2.1⟩

end TicketsApi
